import Mathlib

/-!
Shallow embedding of the seat-availability watcher
(`src/watcher.py` and `src/webapp/worker.py`, with the resolvers in
`src/webapp/student_api.py`).  JSON scalar values that the Python code
probes dynamically are modelled by `PyVal`; a dictionary field read with
`dict.get` is modelled by an `Option PyVal` record field (`none` = key
absent).  Timestamps and durations are modelled by `Int` (seconds);
`datetime` subtraction and comparison against a `timedelta` become
integer subtraction and `≤`/`<`.
-/

namespace CourseNotifier

/-- A Python scalar as it appears in the decoded JSON responses:
an integer, a string, or `None`. -/
inductive PyVal where
  | vint (n : Int)
  | vstr (s : String)
  | vnone
  deriving DecidableEq, Repr

/-- Python truthiness of a `PyVal` (`if course_id:` etc.):
`0`, `""` and `None` are falsy. -/
def PyVal.truthy : PyVal → Bool
  | .vint n => n != 0
  | .vstr s => s != ""
  | .vnone => false

/-- Python `str()` applied to a scalar (`str(c.get("class_number"))`):
integers print in decimal, `None` prints as the 4 letters None. -/
def PyVal.pystr : PyVal → String
  | .vint n => toString n
  | .vstr s => s
  | .vnone => "None"

/-- Decimal value of a list of digit characters. -/
def digitsVal (l : List Char) : Nat :=
  l.foldl (fun acc c => acc * 10 + (c.toNat - 48)) 0

/-- The Python builtin `int(...)` at the repository's call sites
(`int(c.get("enrollment", 0))`): an int passes through, a string parses
as an optionally signed ASCII decimal numeral (surrounding spaces
stripped), anything else — including `None` — raises, modelled as
`none`. -/
def PyVal.toInt : PyVal → Option Int
  | .vint n => some n
  | .vstr s =>
    match ((s.data.dropWhile (· == ' ')).reverse.dropWhile
        (· == ' ')).reverse with
    | '-' :: ds =>
      if !ds.isEmpty && ds.all Char.isDigit then
        some (-(digitsVal ds : Int))
      else none
    | '+' :: ds =>
      if !ds.isEmpty && ds.all Char.isDigit then some ((digitsVal ds : Int))
      else none
    | ds =>
      if !ds.isEmpty && ds.all Char.isDigit then some ((digitsVal ds : Int))
      else none
  | .vnone => none

/-- One class record of a `/courses/seats` response, restricted to the
fields the code reads.  `none` models an absent key. -/
structure ClassRec where
  class_number : Option PyVal
  pu_calc_status : Option PyVal
  enrollment : Option PyVal
  capacity : Option PyVal
  deriving DecidableEq, Repr

/-- One course record of a `/courses/seats` response. -/
structure CourseRec where
  course_id : Option PyVal
  classes : List ClassRec
  deriving DecidableEq, Repr

/-- `src/watcher.py` line 177: the open count the standalone watcher
attaches to an emitted opening (`cap - enroll` when the status is Open
and `cap > enroll`); a class that is not emitted has open count 0. -/
def watcher_n_open (statusOpen : Bool) (enroll cap : Int) : Int :=
  if statusOpen && cap > enroll then cap - enroll else 0

/-- `src/webapp/worker.py` line 68:
`n_open = max(cap - enroll, 0) if status_open and cap > enroll else 0`. -/
def worker_n_open (statusOpen : Bool) (enroll cap : Int) : Int :=
  if statusOpen && cap > enroll then max (cap - enroll) 0 else 0

/-- `src/watcher.py` lines 168-178, the per-class body of
`compute_openings`: the stringified class number, the target-set test,
the literal status comparison, the two `int(...)` coercions guarded by
`try`/`continue` (`none` = the class is skipped), and the emission test
`status_open and cap > enroll`. -/
def classOpening (targets : List String) (c : ClassRec) :
    Option (String × Int) :=
  let classid := (c.class_number.getD .vnone).pystr
  if classid ∈ targets then
    let statusOpen := c.pu_calc_status.getD .vnone == .vstr "Open"
    match (c.enrollment.getD (.vint 0)).toInt,
          (c.capacity.getD (.vint 0)).toInt with
    | some enroll, some cap =>
      if statusOpen && cap > enroll then some (classid, cap - enroll)
      else none
    | _, _ => none
  else none

/-- `src/watcher.py` line 166: `str(course.get("course_id"))` when
present, `"?"` when the key is absent or `None`. -/
def courseIdStr (course : CourseRec) : String :=
  match course.course_id.getD .vnone with
  | .vnone => "?"
  | v => v.pystr

/-- `src/watcher.py` lines 159-179, `compute_openings`: the
`seats_resp.get("course")` access with the `if not courses` falsy test,
then the nested loops collecting `(classid, n_open, courseid)` triples.
(The fourth component of the Python tuple, the raw class dict, is
passed through unread by the caller and is omitted here.) -/
def compute_openings (seats : Option (List CourseRec))
    (targets : List String) : List (String × Int × String) :=
  match seats with
  | none => []
  | some courses =>
    if courses.isEmpty then []
    else courses.foldr (fun course acc =>
      (course.classes.filterMap (fun c =>
        (classOpening targets c).map
          (fun o => (o.1, o.2, courseIdStr course)))) ++ acc) []

/-- `src/webapp/worker.py` lines 62-68, the per-class evaluation in
`run_loop`: status comparison, defaulted `int(...)` coercions guarded
by `try`/`continue` (`none` = the class is skipped), and the `n_open`
formula. -/
def worker_class_n_open (c : ClassRec) : Option Int :=
  let statusOpen := c.pu_calc_status.getD .vnone == .vstr "Open"
  match (c.enrollment.getD (.vint 0)).toInt,
        (c.capacity.getD (.vint 0)).toInt with
  | some enroll, some cap => some (worker_n_open statusOpen enroll cap)
  | _, _ => none

/-- `src/watcher.py` lines 276-283: the standalone watcher's decision
for an emitted opening.  `prev` is `last_alert.get(classid)` — `none`
when the class was never notified; otherwise `(prev_n, prev_t)`.
Send when there is no previous alert, when the open count changed, or
when at least `min_delta` has elapsed since the previous alert. -/
def watcherShouldSend (prev : Option (Int × Int)) (n_open now minDelta : Int) :
    Bool :=
  match prev with
  | none => true
  | some (prev_n, prev_t) =>
    n_open != prev_n || decide (now - prev_t ≥ minDelta)

/-- The standalone watcher's per-section behaviour in one poll cycle
(`src/watcher.py` lines 159-179 and 275-298): a section whose open
count is not positive is never emitted by `compute_openings`, so its
`last_alert` entry is untouched; an emitted section (open count
positive) is decided by `watcherShouldSend`, and on a send its entry
becomes `(n_open, now)` (line 298). -/
def watcherStep (prev : Option (Int × Int)) (n_open now minDelta : Int) :
    Bool × Option (Int × Int) :=
  if n_open > 0 then
    if watcherShouldSend prev n_open now minDelta then (true, some (n_open, now))
    else (false, prev)
  else (false, prev)

/-- `src/webapp/worker.py` lines 71-78: the `should_notify` decision for
a subscription record `s = (last_notified_open, last_notified_at)`
(`none` models a NULL `last_notified_at`). -/
def workerShouldNotify (s : Int × Option Int) (n_open now minDelta : Int) :
    Bool :=
  if n_open > 0 then
    if s.1 < 0 then true
    else if n_open != s.1 then true
    else match s.2 with
      | none => true
      | some t => decide (now - t ≥ minDelta)
  else false

/-- `src/webapp/worker.py` lines 71-84: the worker's per-subscription
behaviour for one poll cycle; on `should_notify` the record's
`last_notified_open`/`last_notified_at` become `(n_open, now)`
(lines 82-83), otherwise the record is unchanged. -/
def workerStep (s : Int × Option Int) (n_open now minDelta : Int) :
    Bool × (Int × Option Int) :=
  if workerShouldNotify s n_open now minDelta then (true, (n_open, some now))
  else (false, s)

/-- Correspondence between the two throttle-state representations: the
watcher's in-memory `last_alert` entry (`none` = never notified) and
the worker's persisted subscription fields (sentinel
`last_notified_open < 0`, default `-1`, = never notified). -/
def throttleRel : Option (Int × Int) → Int × Option Int → Prop
  | none, s => s.1 < 0
  | some (n, t), s => s.1 = n ∧ s.2 = some t

/-- A class record whose defaulted enrollment or capacity field fails
the `int(...)` coercion — the `try`/`except`/`continue` path of
`src/watcher.py` lines 172-176 and `src/webapp/worker.py` lines 63-67. -/
def malformedCounts (c : ClassRec) : Prop :=
  (c.enrollment.getD (.vint 0)).toInt = none
  ∨ (c.capacity.getD (.vint 0)).toInt = none

/-- Outcome of one `ntfy_publish` call (`src/watcher.py` lines
182-191): `requests.post` either returns a response — `delivered` for
a success status, `httpError` for an HTTP error status, which the
function never inspects (`raise_for_status` is not called) — or raises
(`raised`: connection failure or timeout). -/
inductive Dispatch where
  | delivered
  | httpError
  | raised
  deriving DecidableEq, Repr

/-- `src/watcher.py` lines 275-300: one poll cycle's walk over the
detected openings against the `last_alert` dictionary (modelled as an
association list `classid ↦ (n, t)` with overwriting update).
`pub classid` is the outcome of the `ntfy_publish` call.  A raising
publish propagates to the per-cycle `except` handler (lines 299-300):
the `last_alert[classid] = (n_open, now)` assignment on line 298 is not
executed and the remaining openings of the cycle are not processed.
Returns the final map, the classids for which a publish was attempted,
and whether the cycle was aborted by an exception. -/
def watcherAlertCycle (pub : String → Dispatch) (now minDelta : Int) :
    List (String × Int) → List (String × Int × Int) →
    List (String × Int × Int) × List String × Bool
  | [], st => (st, [], false)
  | (classid, n_open) :: rest, st =>
    if watcherShouldSend (st.lookup classid) n_open now minDelta then
      match pub classid with
      | .raised => (st, [classid], true)
      | _ =>
        let st2 := (classid, n_open, now)
          :: st.eraseP (fun e => e.1 == classid)
        let r := watcherAlertCycle pub now minDelta rest st2
        (r.1, classid :: r.2.1, r.2.2)
    else
      watcherAlertCycle pub now minDelta rest st

/-- Model of Python `str.upper()` (ASCII range): uppercase every
character. -/
def pyUpper (s : String) : String := ⟨s.data.map Char.toUpper⟩

/-- Model of Python `str.isdigit()` (ASCII range): non-empty and all
characters decimal digits. -/
def pyIsDigit (s : String) : Bool := !s.data.isEmpty && s.data.all Char.isDigit

/-- `"code", "term_code", "strm"`: the fixed alias priority list of
`src/watcher.py` line 87 and `src/webapp/student_api.py` line 51. -/
def termAliases : List String := ["code", "term_code", "strm"]

/-- `src/watcher.py` lines 90-94: scan the term records in reverse
order for the first field whose value is a digit string (Python dicts
iterate fields in insertion order, modelled by the association list's
order). -/
def digitScan (terms : List (List (String × PyVal))) : Option String :=
  terms.reverse.findSome? (fun item =>
    item.findSome? (fun kv =>
      match kv.2 with
      | .vstr v => if pyIsDigit v then some v else none
      | _ => none))

/-- `src/watcher.py` lines 77-95 and `src/webapp/student_api.py` lines
46-58, `latest_term_code`, after the fetch boundary has unwrapped the
response into the list of term records (each a JSON object, modelled as
an association list): probe the last record with the alias priority
list (`if key in terms[-1]: return terms[-1][key]`), fall back to the
reverse digit scan, and raise — modelled as `.error` — when the listing
is empty or no candidate is found. -/
def latest_term_code (terms : List (List (String × PyVal))) :
    Except String PyVal :=
  match terms.getLast? with
  | none => .error "Unable to determine latest term code"
  | some last =>
    match termAliases.findSome? (fun k => last.lookup k) with
    | some v => .ok v
    | none =>
      match digitScan terms with
      | some v => .ok (.vstr v)
      | none => .error "Unable to determine latest term code"

/-- One class record of a `/courses/courses` catalog response.  The
source reads the keys `class_number` and `section`; the latter is a
Lean keyword, so the field is named `sectionLabel` here. -/
structure CatClass where
  class_number : Option PyVal
  sectionLabel : Option PyVal
  deriving DecidableEq, Repr

/-- One course record of a catalog response. -/
structure CatCourse where
  course_id : Option PyVal
  catalog_number : Option String
  classes : List CatClass
  deriving DecidableEq, Repr

/-- One subject record of a catalog response. -/
structure CatSubject where
  code : Option String
  courses : List CatCourse
  deriving DecidableEq, Repr

/-- `src/watcher.py` lines 141-142: build the display name
`subj_obj.get('code','') + course.get('catalog_number','')` and compare
it case-insensitively (`.upper()`) with the requested course code. -/
def dispMatches (courseCode : String) (subj : CatSubject)
    (course : CatCourse) : Bool :=
  pyUpper ((subj.code.getD "") ++ (course.catalog_number.getD ""))
    == pyUpper courseCode

/-- `src/watcher.py` line 147: the membership test
`c.get("section") in spec.sections` (a non-string or absent section
value never matches a list of strings). -/
def sectionMatches (secs : List String) (c : CatClass) : Bool :=
  match c.sectionLabel.getD .vnone with
  | .vstr v => v ∈ secs
  | _ => false

/-- `src/watcher.py` lines 146-150: what one class contributes to the
`classes` list of a matching course.  When `spec.sections` is truthy (a
non-empty list) the class is kept only if its section value is in it;
otherwise it is always kept; a kept class contributes
`str(c.get("class_number"))`. -/
def classContribution (sections : Option (List String)) (c : CatClass) :
    List String :=
  match sections with
  | some (sec :: secs) =>
    if sectionMatches (sec :: secs) c then [(c.class_number.getD .vnone).pystr]
    else []
  | _ => [(c.class_number.getD .vnone).pystr]

/-- `src/watcher.py` lines 145-150: the class-collection loop of a
matching course. -/
def collectClasses (sections : Option (List String)) :
    List CatClass → List String
  | [] => []
  | c :: cs => classContribution sections c ++ collectClasses sections cs

/-- `src/watcher.py` lines 139-151: within one subject, scan the
courses in order; at the first course whose display name matches,
return its `course_id` (the raw value, `None` when the key is absent)
and its collected classes — the inner loop breaks there.  `none` when
no course of the subject matches. -/
def findInSubject (courseCode : String) (sections : Option (List String))
    (subj : CatSubject) : Option (PyVal × List String) :=
  (subj.courses.find? (fun course => dispMatches courseCode subj course)).map
    (fun course => (course.course_id.getD .vnone,
      collectClasses sections course.classes))

/-- `src/watcher.py` lines 136-153, the outer subject loop of
`resolve_course_to_ids`: `course_id` starts as Python `None`; the
`classes` list accumulates across subjects (it is never reset); after a
subject is processed the loop stops iff `course_id` is truthy
(`if course_id: break`). -/
def scanSubjects (courseCode : String) (sections : Option (List String)) :
    List CatSubject → PyVal × List String → PyVal × List String
  | [], st => st
  | subj :: rest, st =>
    match findInSubject courseCode sections subj with
    | none => scanSubjects courseCode sections rest st
    | some (cid, cls) =>
      let st2 := (cid, st.2 ++ cls)
      if cid.truthy then st2
      else scanSubjects courseCode sections rest st2

/-- `src/watcher.py` lines 122-156, `resolve_course_to_ids` in its
catalog branch, after the fetch boundary has produced the subject list
of `term_list[0]`: run the subject scan from `(None, [])`, then
`if not course_id or not classes: raise` — modelled as `.error`. -/
def resolve_course_to_ids (courseCode : String)
    (sections : Option (List String)) (subjects : List CatSubject) :
    Except String (PyVal × List String) :=
  let r := scanSubjects courseCode sections subjects (.vnone, [])
  if !r.1.truthy || r.2.isEmpty then .error "Could not resolve course/classes"
  else .ok r

/-- The first course in catalog order (subjects in order, then each
subject's courses in order) whose display name matches the requested
code — the claim's notion of the matching course. -/
def firstMatch (courseCode : String) (subjects : List CatSubject) :
    Option CatCourse :=
  subjects.findSome? (fun subj =>
    subj.courses.find? (fun course => dispMatches courseCode subj course))

/-- Modelled from the claim's wording: with a non-empty section filter,
exactly the classes of the course whose section label is in the filter,
in catalog order; otherwise all of the course's classes. -/
def specCollect (sections : Option (List String)) (cs : List CatClass) :
    List String :=
  match sections with
  | some (sec :: secs) =>
    (cs.filter (sectionMatches (sec :: secs))).map
      (fun c => (c.class_number.getD .vnone).pystr)
  | _ => cs.map (fun c => (c.class_number.getD .vnone).pystr)

/-- Modelled from the claim's wording (spec §4.2): return the qualifying
classes of the first display-matching course, and fail exactly when no
course matches or when zero classes qualify. -/
def resolveSpec (courseCode : String) (sections : Option (List String))
    (subjects : List CatSubject) : Except String (PyVal × List String) :=
  match firstMatch courseCode subjects with
  | none => .error "Could not resolve course/classes"
  | some course =>
    let cls := specCollect sections course.classes
    if cls.isEmpty then .error "Could not resolve course/classes"
    else .ok (course.course_id.getD .vnone, cls)

end CourseNotifier

namespace CourseNotifier

/-- C1. For every seat snapshot (capacity, enrollment, status), the
computed open count equals `max(capacity - enrollment, 0)` when the
status is the literal string Open, and `0` whenever the status is not
Open, regardless of the raw enrollment and capacity values — in both
the standalone watcher's emission formula and the worker's `n_open`
formula. -/
theorem openCount_eq_max_capacity_sub_enrollment
    (statusOpen : Bool) (enroll cap : Int) :
    watcher_n_open statusOpen enroll cap
      = (if statusOpen then max (cap - enroll) 0 else 0)
    ∧ worker_n_open statusOpen enroll cap
      = (if statusOpen then max (cap - enroll) 0 else 0) := by
  unfold watcher_n_open worker_n_open
  rcases statusOpen with _ | _ <;> simp <;> omega

end CourseNotifier

namespace CourseNotifier

/-- C3. A tracked section in the unnotified state (absent `last_alert`
entry in the watcher; sentinel `last_notified_open = -1` in the
worker), on the first cycle observing a positive open count, produces
exactly one notification and transitions to `Notified(n_open, now)`. -/
theorem first_opening_notifies (n now d : Int) (h : 0 < n) :
    watcherStep none n now d = (true, some (n, now))
    ∧ workerStep (-1, none) n now d = (true, (n, some now)) := by
  constructor
  · simp [watcherStep, watcherShouldSend, h]
  · simp [workerStep, workerShouldNotify, h]

/-- Witness for `first_opening_notifies` at `n = 3`, `now = 100`,
`d = 20`. -/
theorem first_opening_notifies_witness :
    (0 : Int) < 3
    ∧ (watcherStep none 3 100 20 = (true, some (3, 100))
       ∧ workerStep (-1, none) 3 100 20 = (true, (3, some 100))) :=
  ⟨by decide, first_opening_notifies 3 100 20 (by decide)⟩

/-- C4. On a cycle observing open count 0, no notification is sent and
the throttle state is left exactly unchanged, in both variants and in
both the unnotified and notified states. -/
theorem openCount_zero_preserves_state (prev : Option (Int × Int))
    (s : Int × Option Int) (now d : Int) :
    watcherStep prev 0 now d = (false, prev)
    ∧ workerStep s 0 now d = (false, s) := by
  constructor
  · simp [watcherStep]
  · simp [workerStep, workerShouldNotify]

/-- C2. A section in state `Notified(pn, pt)` receiving a fresh positive
open count `n` at time `now`: a notification is sent exactly when
`n ≠ pn` (regardless of elapsed time) or `now - pt ≥ d`, and on a send
the state becomes `Notified(n, now)`; otherwise it is suppressed and
the state is unchanged — in both variants. -/
theorem notified_state_renotify_decision (pn pt n now d : Int) (h : 0 < n) :
    (watcherStep (some (pn, pt)) n now d
      = if n ≠ pn ∨ now - pt ≥ d then (true, some (n, now))
        else (false, some (pn, pt)))
    ∧ (workerStep (pn, some pt) n now d
      = if n ≠ pn ∨ now - pt ≥ d then (true, (n, some now))
        else (false, (pn, some pt))) := by
  by_cases hc : n ≠ pn ∨ now - pt ≥ d
  · have hws : watcherShouldSend (some (pn, pt)) n now d = true := by
      simp only [watcherShouldSend, Bool.or_eq_true, bne_iff_ne, ne_eq,
        decide_eq_true_eq]
      tauto
    have hdec : workerShouldNotify (pn, some pt) n now d = true := by
      rcases hc with hc | hc
      · by_cases hlt : pn < 0
        · simp [workerShouldNotify, h, hlt]
        · simp [workerShouldNotify, h, hlt, hc]
      · by_cases hlt : pn < 0
        · simp [workerShouldNotify, h, hlt]
        · by_cases hne : n = pn
          · simp [workerShouldNotify, hlt, hne, hc,
              show (0 : Int) < pn by omega]
          · simp [workerShouldNotify, h, hlt, hne]
    constructor
    · simp [watcherStep, hws, h, if_pos hc]
    · simp [workerStep, hdec, if_pos hc]
  · have hcn := hc
    push_neg at hcn
    obtain ⟨hne, htime⟩ := hcn
    have htime' : ¬ now - pt ≥ d := not_le.mpr htime
    have hws : watcherShouldSend (some (pn, pt)) n now d = false := by
      simp [watcherShouldSend, hne, htime']
    have hlt : ¬ pn < 0 := by omega
    have hdec : workerShouldNotify (pn, some pt) n now d = false := by
      simp [workerShouldNotify, h, hlt, hne, htime']
    constructor
    · simp [watcherStep, hws, h, if_neg hc]
    · simp [workerStep, hdec, if_neg hc]

/-- Witness for `notified_state_renotify_decision` at
`pn = 2`, `pt = 0`, `n = 3`, `now = 5`, `d = 20`. -/
theorem notified_state_renotify_decision_witness :
    (0 : Int) < 3
    ∧ ((watcherStep (some (2, 0)) 3 5 20
        = if (3 : Int) ≠ 2 ∨ (5 : Int) - 0 ≥ 20 then (true, some (3, 5))
          else (false, some (2, 0)))
      ∧ (workerStep (2, some 0) 3 5 20
        = if (3 : Int) ≠ 2 ∨ (5 : Int) - 0 ≥ 20 then (true, (3, some 5))
          else (false, (2, some 0)))) :=
  ⟨by decide, notified_state_renotify_decision 2 0 3 5 20 (by decide)⟩

/-- C9. The two duplicated variants of the detection-and-throttling
logic — the standalone watcher with its in-memory `last_alert` map and
the worker with its persisted subscription record — make the same
notify/suppress decision and produce corresponding successor throttle
states for every input (open count, related prior states, current time,
re-notify interval). -/
theorem throttle_variants_equivalent (w : Option (Int × Int))
    (s : Int × Option Int) (hrel : throttleRel w s) (n now d : Int) :
    (watcherStep w n now d).1 = (workerStep s n now d).1
    ∧ throttleRel (watcherStep w n now d).2 (workerStep s n now d).2 := by
  by_cases hn : n > 0
  · rcases w with _ | ⟨wn, wt⟩
    · have hs : s.1 < 0 := hrel
      have hdec : workerShouldNotify s n now d = true := by
        simp [workerShouldNotify, hn, hs]
      have hws : watcherShouldSend none n now d = true := rfl
      refine ⟨?_, ?_⟩ <;>
        simp [watcherStep, workerStep, hdec, hws, hn, throttleRel]
    · obtain ⟨hs1, hs2⟩ := hrel
      by_cases hsend : watcherShouldSend (some (wn, wt)) n now d = true
      · have hsend' := hsend
        simp only [watcherShouldSend, Bool.or_eq_true, bne_iff_ne, ne_eq,
          decide_eq_true_eq] at hsend'
        have hdec : workerShouldNotify s n now d = true := by
          rcases hsend' with hc | hc
          · by_cases hlt : s.1 < 0
            · simp [workerShouldNotify, hn, hlt]
            · simp [workerShouldNotify, hn, hlt, hs1, hc]
          · by_cases hlt : s.1 < 0
            · simp [workerShouldNotify, hn, hlt]
            · by_cases hne : n = s.1
              · simp [workerShouldNotify, hlt, hne, hs2, hc,
                  show (0 : Int) < s.1 by omega]
              · simp [workerShouldNotify, hn, hlt, hne]
        refine ⟨?_, ?_⟩ <;>
          simp [watcherStep, workerStep, hsend, hdec, hn, throttleRel]
      · have hsend' := Bool.eq_false_iff.mpr hsend
        have hsend2 := hsend'
        simp only [watcherShouldSend, Bool.or_eq_false_iff,
          bne_eq_false_iff_eq, decide_eq_false_iff_not] at hsend2
        obtain ⟨hne, htime⟩ := hsend2
        have hlt : ¬ s.1 < 0 := by omega
        have hdec : workerShouldNotify s n now d = false := by
          simp [workerShouldNotify, hn, hlt, hs1, ← hne, hs2, htime,
            show (0 : Int) ≤ n by omega]
        refine ⟨?_, ?_⟩ <;>
          simp [watcherStep, workerStep, hsend', hdec, hn, throttleRel,
            hs1, hs2]
  · have hdec : workerShouldNotify s n now d = false := by
      simp [workerShouldNotify, hn]
    have h1 : watcherStep w n now d = (false, w) := by
      simp [watcherStep, hn]
    have h2 : workerStep s n now d = (false, s) := by
      simp [workerStep, hdec]
    rw [h1, h2]
    exact ⟨rfl, hrel⟩

/-- Witness for `throttle_variants_equivalent` at the initial related
pair (`none` in the watcher map, `(-1, NULL)` in the worker record),
`n = 1`, `now = 0`, `d = 20`. -/
theorem throttle_variants_equivalent_witness :
    throttleRel none ((-1 : Int), none)
    ∧ ((watcherStep none 1 0 20).1 = (workerStep (-1, none) 1 0 20).1
      ∧ throttleRel (watcherStep none 1 0 20).2
          (workerStep (-1, none) 1 0 20).2) :=
  ⟨by show (-1 : Int) < 0; decide,
   throttle_variants_equivalent none (-1, none)
     (by show (-1 : Int) < 0; decide) 1 0 20⟩

/-- Helper: a class with a malformed count field is skipped by the
standalone watcher's per-class computation. -/
theorem classOpening_malformed (targets : List String) (c : ClassRec)
    (hmal : malformedCounts c) : classOpening targets c = none := by
  unfold classOpening
  rcases h1 : (c.enrollment.getD (.vint 0)).toInt with _ | e <;>
    rcases h2 : (c.capacity.getD (.vint 0)).toInt with _ | v <;>
      rcases hmal with hm | hm <;> simp_all

/-- C6. A class whose enrollment or capacity field is non-numeric is
excluded from that cycle's result set (no opening, no error), while
every other class in the same batch is processed exactly as if the
malformed class were absent. -/
theorem malformed_class_excluded (targets : List String)
    (cs ds : List CourseRec) (co : CourseRec) (xs ys : List ClassRec)
    (c : ClassRec) (hmal : malformedCounts c) :
    compute_openings
        (some (cs ++ { co with classes := xs ++ c :: ys } :: ds)) targets
      = compute_openings
        (some (cs ++ { co with classes := xs ++ ys } :: ds)) targets := by
  have hnone := classOpening_malformed targets c hmal
  simp [compute_openings, List.filterMap_append, hnone, courseIdStr]

/-- Witness for `malformed_class_excluded`: a batch of two targeted
classes in one course, the first with a non-numeric (JSON null)
enrollment. -/
theorem malformed_class_excluded_witness :
    malformedCounts ⟨some (.vstr "7"), some (.vstr "Open"),
        some .vnone, some (.vint 10)⟩
    ∧ compute_openings
        (some [(⟨some (.vstr "42"),
          [⟨some (.vstr "7"), some (.vstr "Open"),
              some .vnone, some (.vint 10)⟩,
           ⟨some (.vstr "8"), some (.vstr "Open"),
              some (.vint 1), some (.vint 5)⟩]⟩ : CourseRec)]) ["7", "8"]
      = compute_openings
        (some [(⟨some (.vstr "42"),
          [⟨some (.vstr "8"), some (.vstr "Open"),
              some (.vint 1), some (.vint 5)⟩]⟩ : CourseRec)]) ["7", "8"] :=
  ⟨Or.inl rfl,
   malformed_class_excluded ["7", "8"] [] [] ⟨some (.vstr "42"), []⟩ []
     [⟨some (.vstr "8"), some (.vstr "Open"),
        some (.vint 1), some (.vint 5)⟩]
     ⟨some (.vstr "7"), some (.vstr "Open"),
        some .vnone, some (.vint 10)⟩ (Or.inl rfl)⟩

/-- C10. A class snapshot whose enrollment or capacity key is absent is
not skipped: the missing value defaults to 0.  With capacity absent the
computed open count is 0 and no opening is emitted; with enrollment
absent and status Open the computed open count equals the capacity (and
the watcher emits the class with that count when it is positive and
targeted). -/
theorem missing_counts_default_to_zero (targets : List String)
    (c : ClassRec) (e cap : Int) :
    (c.capacity = none → (c.enrollment.getD (.vint 0)).toInt = some e →
      0 ≤ e →
      worker_class_n_open c = some 0 ∧ classOpening targets c = none)
    ∧ (c.enrollment = none → (c.capacity.getD (.vint 0)).toInt = some cap →
      0 ≤ cap → c.pu_calc_status.getD .vnone = .vstr "Open" →
      worker_class_n_open c = some cap
        ∧ (0 < cap → (c.class_number.getD .vnone).pystr ∈ targets →
            classOpening targets c
              = some ((c.class_number.getD .vnone).pystr, cap))) := by
  constructor
  · intro hcap h1 he
    have h2 : (c.capacity.getD (.vint 0)).toInt = some 0 := by
      rw [hcap]; rfl
    constructor
    · simp only [worker_class_n_open, h1, h2]
      simp [worker_n_open, show ¬ ((0 : Int) > e) by omega]
    · simp only [classOpening, h1, h2]
      simp [show ¬ ((0 : Int) > e) by omega]
  · intro hen h2 hcap0 hst
    have h1 : (c.enrollment.getD (.vint 0)).toInt = some 0 := by
      rw [hen]; rfl
    constructor
    · simp only [worker_class_n_open, h1, h2, hst]
      simp only [worker_n_open]
      by_cases hc : (0 : Int) < cap
      · simp [hc]
        omega
      · have hz : cap = 0 := by omega
        simp [hz]
    · intro hpos hmem
      simp only [classOpening, h1, h2, hst]
      simp [hmem, hpos]

/-- Witness for `missing_counts_default_to_zero`: a targeted Open class
with capacity key absent (enrollment 3), and one with enrollment key
absent (capacity 4). -/
theorem missing_counts_default_to_zero_witness :
    (worker_class_n_open ⟨some (.vstr "7"), some (.vstr "Open"),
        some (.vint 3), none⟩ = some 0
      ∧ classOpening ["7"] ⟨some (.vstr "7"), some (.vstr "Open"),
        some (.vint 3), none⟩ = none)
    ∧ (worker_class_n_open ⟨some (.vstr "7"), some (.vstr "Open"),
        none, some (.vint 4)⟩ = some 4
      ∧ classOpening ["7"] ⟨some (.vstr "7"), some (.vstr "Open"),
        none, some (.vint 4)⟩ = some ("7", 4)) := by
  constructor
  · exact (missing_counts_default_to_zero ["7"]
      ⟨some (.vstr "7"), some (.vstr "Open"), some (.vint 3), none⟩
      3 0).1 rfl rfl (by decide)
  · have h := (missing_counts_default_to_zero ["7"]
      ⟨some (.vstr "7"), some (.vstr "Open"), none, some (.vint 4)⟩
      0 4).2 rfl rfl (by decide) rfl
    exact ⟨h.1, h.2 (by decide) (by decide)⟩

/-- C5 counterexample: a publish that raises at the first of two
sections due a notification.  The claim predicts the section's state
still becomes `(openCount, now)` and the second section is still
processed; the code leaves the state untouched and skips the second
section (the exception lands in the per-cycle handler). -/
theorem dispatch_failure_counterexample :
    ¬ ((watcherAlertCycle (fun _ => Dispatch.raised) 100 20
          [("a", 1), ("b", 2)] []).1.lookup "a" = some (1, 100)
      ∧ "b" ∈ (watcherAlertCycle (fun _ => Dispatch.raised) 100 20
          [("a", 1), ("b", 2)] []).2.1) := by
  decide

/-- C5 amended.  A publish that completes without raising — even with
an HTTP error status, which the code never inspects — behaves exactly
as a successful send: the whole cycle proceeds as if every publish
succeeded (state advances, no retry, remaining sections processed).
A publish that raises aborts the cycle: the section's state is not
updated and the remaining sections are skipped. -/
theorem dispatch_nonraising_behavior (pub : String → Dispatch)
    (now d : Int) (hnr : ∀ cid, pub cid ≠ Dispatch.raised) :
    (∀ (openings : List (String × Int)) (st : List (String × Int × Int)),
      watcherAlertCycle pub now d openings st
        = watcherAlertCycle (fun _ => Dispatch.delivered) now d openings st)
    ∧ (∀ (pub2 : String → Dispatch) (cid : String) (n : Int)
        (rest : List (String × Int)) (st : List (String × Int × Int)),
        pub2 cid = Dispatch.raised →
        watcherShouldSend (st.lookup cid) n now d = true →
        watcherAlertCycle pub2 now d ((cid, n) :: rest) st
          = (st, [cid], true)) := by
  constructor
  · intro openings
    induction openings with
    | nil => intro st; rfl
    | cons hd rest ih =>
      intro st
      obtain ⟨cid, n⟩ := hd
      by_cases hsend : watcherShouldSend (st.lookup cid) n now d = true
      · rcases hp : pub cid with _ | _ | _
        · simp [watcherAlertCycle, hsend, hp, ih]
        · simp [watcherAlertCycle, hsend, hp, ih]
        · exact absurd hp (hnr cid)
      · simp [watcherAlertCycle, hsend, ih]
  · intro pub2 cid n rest st hp hsend
    simp [watcherAlertCycle, hsend, hp]

/-- Witness for `dispatch_nonraising_behavior`: an HTTP-error publish
behaves as a delivered one on a one-section cycle, and a raising
publish aborts a two-section cycle after the first section. -/
theorem dispatch_nonraising_behavior_witness :
    (fun _ : String => Dispatch.httpError) "a" ≠ Dispatch.raised
    ∧ watcherAlertCycle (fun _ => Dispatch.httpError) 100 20
        [("a", 1)] []
      = watcherAlertCycle (fun _ => Dispatch.delivered) 100 20
        [("a", 1)] []
    ∧ watcherAlertCycle (fun _ => Dispatch.raised) 100 20
        [("a", 1), ("b", 2)] [] = ([], ["a"], true) :=
  by
  have hnr : ∀ cid : String,
      (fun _ : String => Dispatch.httpError) cid ≠ Dispatch.raised := by
    intro cid h
    exact Dispatch.noConfusion h
  exact ⟨hnr "a",
    (dispatch_nonraising_behavior (fun _ => Dispatch.httpError) 100 20
      hnr).1 [("a", 1)] [],
    (dispatch_nonraising_behavior (fun _ => Dispatch.httpError) 100 20
      hnr).2 (fun _ => Dispatch.raised) "a" 1
      [("b", 2)] [] rfl (by decide)⟩

/-- Helper: the source's class-collection loop computes the claim's
filter-then-stringify description. -/
theorem collectClasses_eq_specCollect (sections : Option (List String))
    (cs : List CatClass) :
    collectClasses sections cs = specCollect sections cs := by
  induction cs with
  | nil => rcases sections with _ | ⟨_ | ⟨sec, secs⟩⟩ <;> rfl
  | cons c cs ih =>
    rcases sections with _ | ⟨_ | ⟨sec, secs⟩⟩
    · simpa [collectClasses, classContribution, specCollect] using ih
    · simpa [collectClasses, classContribution, specCollect] using ih
    · rcases hm : sectionMatches (sec :: secs) c with _ | _
      · simpa [collectClasses, classContribution, specCollect,
          List.filter_cons, hm] using ih
      · simpa [collectClasses, classContribution, specCollect,
          List.filter_cons, hm] using ih

/-- Helper: when every display-matching course carries a truthy
`course_id`, the subject scan from `(None, [])` lands exactly on the
first matching course in catalog order. -/
theorem scanSubjects_firstMatch (courseCode : String)
    (sections : Option (List String)) :
    ∀ subjects : List CatSubject,
      (∀ subj ∈ subjects, ∀ course ∈ subj.courses,
        dispMatches courseCode subj course = true →
        (course.course_id.getD .vnone).truthy = true) →
      scanSubjects courseCode sections subjects (.vnone, [])
        = match firstMatch courseCode subjects with
          | none => (.vnone, [])
          | some course =>
            (course.course_id.getD .vnone,
             collectClasses sections course.classes) := by
  intro subjects
  induction subjects with
  | nil => intro _; rfl
  | cons subj rest ih =>
    intro Hcid
    have Hrest : ∀ s ∈ rest, ∀ course ∈ s.courses,
        dispMatches courseCode s course = true →
        (course.course_id.getD .vnone).truthy = true :=
      fun s hs => Hcid s (List.mem_cons_of_mem _ hs)
    rcases hf : subj.courses.find?
        (fun course => dispMatches courseCode subj course) with _ | course
    · have hfi : findInSubject courseCode sections subj = none := by
        simp [findInSubject, hf]
      simp only [scanSubjects, hfi, firstMatch, List.findSome?_cons, hf]
      exact ih Hrest
    · have hmem := List.mem_of_find?_eq_some hf
      have hdm : dispMatches courseCode subj course = true :=
        List.find?_some hf
      have htruthy := Hcid subj (List.mem_cons_self _ _) course hmem hdm
      have hfi : findInSubject courseCode sections subj
          = some (course.course_id.getD .vnone,
              collectClasses sections course.classes) := by
        simp [findInSubject, hf]
      simp [scanSubjects, hfi, htruthy, firstMatch, List.findSome?_cons, hf]

/-- C7 (amended).  Provided every course whose display name matches the
requested code carries a truthy `course_id`, the resolver returns
exactly the claim's described result: the classes of the first
display-matching course — those whose section label is in the filter
when the filter is non-empty (in catalog order), all of them otherwise
— and it fails exactly when no course matches or zero classes qualify. -/
theorem course_resolver_matches_spec (courseCode : String)
    (sections : Option (List String)) (subjects : List CatSubject)
    (Hcid : ∀ subj ∈ subjects, ∀ course ∈ subj.courses,
      dispMatches courseCode subj course = true →
      (course.course_id.getD .vnone).truthy = true) :
    resolve_course_to_ids courseCode sections subjects
      = resolveSpec courseCode sections subjects := by
  have hscan := scanSubjects_firstMatch courseCode sections subjects Hcid
  rcases hfm : firstMatch courseCode subjects with _ | course
  · rw [hfm] at hscan
    simp [resolve_course_to_ids, resolveSpec, hscan, hfm, PyVal.truthy]
  · rw [hfm] at hscan
    obtain ⟨subj, hsubj, hfind⟩ := List.exists_of_findSome?_eq_some hfm
    have htruthy := Hcid subj hsubj course
      (List.mem_of_find?_eq_some hfind) (List.find?_some hfind)
    simp [resolve_course_to_ids, resolveSpec, hscan, hfm, htruthy,
      collectClasses_eq_specCollect]

/-- Witness for `course_resolver_matches_spec`: the spec's own example
— `COS333:L01,P01` against a catalog with sections L01, L02, P01, P02
under COS333 — resolves to exactly the L01 and P01 classes. -/
theorem course_resolver_matches_spec_witness :
    (∀ subj ∈ ([⟨some "COS", [⟨some (.vstr "002054"), some "333",
        [⟨some (.vstr "1"), some (.vstr "L01")⟩,
         ⟨some (.vstr "2"), some (.vstr "L02")⟩,
         ⟨some (.vstr "3"), some (.vstr "P01")⟩,
         ⟨some (.vstr "4"), some (.vstr "P02")⟩]⟩]⟩]
        : List CatSubject), ∀ course ∈ subj.courses,
      dispMatches "COS333" subj course = true →
      (course.course_id.getD .vnone).truthy = true)
    ∧ resolve_course_to_ids "COS333" (some ["L01", "P01"])
        [⟨some "COS", [⟨some (.vstr "002054"), some "333",
          [⟨some (.vstr "1"), some (.vstr "L01")⟩,
           ⟨some (.vstr "2"), some (.vstr "L02")⟩,
           ⟨some (.vstr "3"), some (.vstr "P01")⟩,
           ⟨some (.vstr "4"), some (.vstr "P02")⟩]⟩]⟩]
      = resolveSpec "COS333" (some ["L01", "P01"])
        [⟨some "COS", [⟨some (.vstr "002054"), some "333",
          [⟨some (.vstr "1"), some (.vstr "L01")⟩,
           ⟨some (.vstr "2"), some (.vstr "L02")⟩,
           ⟨some (.vstr "3"), some (.vstr "P01")⟩,
           ⟨some (.vstr "4"), some (.vstr "P02")⟩]⟩]⟩]
    ∧ resolve_course_to_ids "COS333" (some ["L01", "P01"])
        [⟨some "COS", [⟨some (.vstr "002054"), some "333",
          [⟨some (.vstr "1"), some (.vstr "L01")⟩,
           ⟨some (.vstr "2"), some (.vstr "L02")⟩,
           ⟨some (.vstr "3"), some (.vstr "P01")⟩,
           ⟨some (.vstr "4"), some (.vstr "P02")⟩]⟩]⟩]
      = .ok (.vstr "002054", ["1", "3"]) := by
  refine ⟨?_, ?_, ?_⟩
  · decide
  · exact course_resolver_matches_spec "COS333" (some ["L01", "P01"]) _
      (by decide)
  · rfl

/-- C7 counterexample: a catalog whose single course matches `COS333`
and has one qualifying class but lacks a `course_id` — the claim says
the resolver succeeds with that class, the code raises. -/
theorem course_resolver_counterexample :
    resolve_course_to_ids "COS333" none
        [⟨some "COS", [⟨none, some "333",
          [⟨some (.vstr "12345"), some (.vstr "L01")⟩]⟩]⟩]
      = .error "Could not resolve course/classes"
    ∧ resolveSpec "COS333" none
        [⟨some "COS", [⟨none, some "333",
          [⟨some (.vstr "12345"), some (.vstr "L01")⟩]⟩]⟩]
      = .ok (.vnone, ["12345"]) :=
  ⟨rfl, rfl⟩

/-- C8. TermResolver: with a non-empty listing, the result is the value
of the first alias-priority field present on the last record when one
is present; otherwise the first digit-string field value of the
reverse-order scan when one exists; and it errors exactly when the
listing is empty or no candidate is found. -/
theorem term_resolver_characterization
    (terms : List (List (String × PyVal))) :
    (terms = [] →
      latest_term_code terms = .error "Unable to determine latest term code")
    ∧ (∀ last, terms.getLast? = some last →
        (∀ v, termAliases.findSome? (fun k => last.lookup k) = some v →
          latest_term_code terms = .ok v)
        ∧ (termAliases.findSome? (fun k => last.lookup k) = none →
          (∀ v, digitScan terms = some v →
            latest_term_code terms = .ok (.vstr v))
          ∧ (digitScan terms = none →
            latest_term_code terms
              = .error "Unable to determine latest term code")))
    ∧ (∀ e, latest_term_code terms = .error e →
        terms.getLast? = none
        ∨ ∃ last, terms.getLast? = some last
            ∧ termAliases.findSome? (fun k => last.lookup k) = none
            ∧ digitScan terms = none) := by
  refine ⟨?_, ?_, ?_⟩
  · intro h
    subst h
    rfl
  · intro last hlast
    refine ⟨?_, ?_⟩
    · intro v hv
      simp [latest_term_code, hlast, hv]
    · intro hnone
      refine ⟨?_, ?_⟩
      · intro v hv
        simp [latest_term_code, hlast, hnone, hv]
      · intro hv
        simp [latest_term_code, hlast, hnone, hv]
  · intro e he
    rcases hlast : terms.getLast? with _ | last
    · exact Or.inl rfl
    · refine Or.inr ⟨last, rfl, ?_⟩
      rcases hal : termAliases.findSome? (fun k => last.lookup k) with _ | v
      · rcases hds : digitScan terms with _ | v
        · exact ⟨rfl, rfl⟩
        · simp [latest_term_code, hlast, hal, hds] at he
      · simp [latest_term_code, hlast, hal] at he

/-- Witness for `term_resolver_characterization`: a two-record listing
whose last record carries a `term_code` field. -/
theorem term_resolver_characterization_witness :
    ([[("x", PyVal.vstr "Fall")],
      [("term_code", PyVal.vstr "1262"), ("name", PyVal.vstr "Spring")]]
        : List (List (String × PyVal))).getLast?
      = some [("term_code", .vstr "1262"), ("name", .vstr "Spring")]
    ∧ termAliases.findSome?
        (fun k => ([("term_code", PyVal.vstr "1262"),
          ("name", PyVal.vstr "Spring")]
            : List (String × PyVal)).lookup k)
      = some (.vstr "1262")
    ∧ latest_term_code [[("x", .vstr "Fall")],
        [("term_code", .vstr "1262"), ("name", .vstr "Spring")]]
      = .ok (.vstr "1262") := by
  refine ⟨rfl, rfl, ?_⟩
  exact ((term_resolver_characterization
    [[("x", .vstr "Fall")],
     [("term_code", .vstr "1262"), ("name", .vstr "Spring")]]).2.1
    [("term_code", .vstr "1262"), ("name", .vstr "Spring")] rfl).1
    (.vstr "1262") rfl

end CourseNotifier
